import Mathlib

/-!
Verification of the logratio-transform core of eis_toolkit
(transformations/coda/alr.py and its CLR companion).

A pandas DataFrame of compositional data is modelled as an ordered list of
column names, an ordered list of row labels, and a list of rows; each cell is
an `Option ℝ` where `none` models a null (NaN) cell and `some x` a numeric
cell.  The transforms from the source are translated function by function;
components of the repository that are referenced but whose files are not part
of the source tree (the compositional-check decorator, the column-index bounds
utility, and the CLR transform itself) are modelled from the specification and
marked as such in their doc comments.
-/

/-- A cell of a dataframe: `none` models a null (NaN) entry. -/
abbrev Cell : Type := Option ℝ

/-- Model of a pandas DataFrame: named columns, row labels, and rows of cells. -/
structure DataFrame where
  columns : List String
  rowIndex : List Nat
  data : List (List Cell)


/-- Model of `df.isnull().values.any()`: does any cell of the frame hold NaN. -/
def DataFrame.hasNull (df : DataFrame) : Bool :=
  df.data.any (fun row => row.any (fun c => c.isNone))

/-- Model of pandas column selection `df[c]` restricted to one row: the cell of
`row` in the column named `c` (first occurrence, as for unique column names). -/
def getCell (df : DataFrame) (row : List Cell) (c : String) : Cell :=
  match df.columns.findIdx? (fun s => s = c) with
  | some j => row.getD j none
  | none => none

/-- Pandas division of two cells: NaN propagates, numeric cells divide. -/
noncomputable def cellDiv (a b : Cell) : Cell :=
  match a, b with
  | some x, some y => some (x / y)
  | _, _ => none

/-- Model of elementwise `np.log` on a cell. -/
noncomputable def cellLog (a : Cell) : Cell :=
  a.map Real.log

/-- Model of Python integer indexing into the column list: a negative index
counts from the end (`df.columns[idx]`). -/
def resolveIdx (n : Nat) (idx : Int) : Nat :=
  if idx < 0 then ((n : Int) + idx).toNat else idx.toNat

/-- The denominator column name `df.columns[idx]` chosen by `alr_transform`. -/
def denomName (df : DataFrame) (idx : Int) : String :=
  df.columns.getD (resolveIdx df.columns.length idx) ""

/-- The error taxonomy of eis_toolkit.exceptions, as far as the coda
transforms use it. -/
inductive CodaError where
  | invalidComposition
  | invalidColumnIndex
  | numericValueSign
  | invalidParameterValue
deriving DecidableEq

/-- Modelled from the spec: the bounds-checking utility
`check_column_index_in_dataframe` (eis_toolkit.utilities.checks.dataframe,
whose file is not part of the source tree) validates an integer column index
against the column count, with valid range `-n_columns .. n_columns-1`. -/
def check_column_index_in_dataframe (df : DataFrame) (idx : Int) : Bool :=
  decide (-(df.columns.length : Int) ≤ idx ∧ idx < (df.columns.length : Int))

/-- Modelled from the spec: the decorator `check_compositional`
(eis_toolkit.utilities.checks.coda, whose file is not part of the source
tree) rejects a table holding any null cell with an InvalidComposition error
before the transform body runs; per the spec the sign check belongs to the
CLR path only. -/
def check_compositional (df : DataFrame) : Except CodaError Unit :=
  if df.hasNull then Except.error CodaError.invalidComposition else Except.ok ()

/-- Translation of `_alr_transform_old`:
`ratios = df[columns].div(df[denominator_column], axis=0); return np.log(ratios)`. -/
noncomputable def _alr_transform_old (df : DataFrame) (columns : List String)
    (denominator_column : String) : DataFrame :=
  DataFrame.mk columns df.rowIndex
    (df.data.map (fun row =>
      columns.map (fun c =>
        cellLog (cellDiv (getCell df row c) (getCell df row denominator_column)))))

/-- Translation of `_alr_transform`:
`ratios = df[columns].div(df[denominator_column], axis=0); return np.log(ratios)`. -/
noncomputable def _alr_transform (df : DataFrame) (columns : List String)
    (denominator_column : String) : DataFrame :=
  DataFrame.mk columns df.rowIndex
    (df.data.map (fun row =>
      columns.map (fun c =>
        cellLog (cellDiv (getCell df row c) (getCell df row denominator_column)))))

/-- The body of `alr_transform` (after the `check_compositional` decorator):
null check, index bounds check, denominator resolution, add-then-remove
column-set logic, then `_alr_transform`. -/
noncomputable def alr_transform_body (df : DataFrame) (idx : Int)
    (keep_redundant_column : Bool) : Except CodaError DataFrame :=
  if df.hasNull then Except.error CodaError.invalidComposition
  else
    let columns := df.columns
    if ¬ check_column_index_in_dataframe df idx then
      Except.error CodaError.invalidColumnIndex
    else
      let denominator_column := denomName df idx
      let columns1 := if denominator_column ∈ columns then columns
        else columns ++ [denominator_column]
      let columns2 := if ¬ keep_redundant_column ∧ denominator_column ∈ columns1 then
        columns1.erase denominator_column else columns1
      Except.ok (_alr_transform df columns2 denominator_column)

/-- Translation of the decorated entry point `alr_transform`: the
`check_compositional` decorator runs first, then the body. -/
noncomputable def alr_transform (df : DataFrame) (idx : Int)
    (keep_redundant_column : Bool) : Except CodaError DataFrame :=
  match check_compositional df with
  | Except.error e => Except.error e
  | Except.ok _ => alr_transform_body df idx keep_redundant_column

/-- The numeric value held by a cell (with `0` as the junk value of a null
cell; only used on frames that passed the null check). -/
def cellVal (c : Cell) : ℝ :=
  c.getD 0

/-- Modelled from the spec: the predicate behind the strict-positivity check
of the CLR path (any cell zero or negative). -/
def DataFrame.hasNonPositiveCell (df : DataFrame) : Prop :=
  ∃ row ∈ df.data, ∃ c ∈ row, cellVal c ≤ 0

/-- Modelled from the spec: the per-row geometric mean of the CLR transform,
as the exponential of the mean of the logs of the cells of the row. -/
noncomputable def gmean (row : List Cell) : ℝ :=
  Real.exp ((row.map (fun c => Real.log (cellVal c))).sum / row.length)

open Classical

/-- Modelled from the spec: `clr_transform` (transformations/coda/clr.py,
whose file is not part of the source tree, though its test file is).  It
rejects a table with null cells with InvalidComposition, rejects any
zero-or-negative cell with NumericValueSign, and otherwise divides each cell
by the geometric mean of its row and applies the natural log, keeping the
column names and row labels of the input. -/
noncomputable def clr_transform (df : DataFrame) : Except CodaError DataFrame :=
  if df.hasNull then Except.error CodaError.invalidComposition
  else if df.hasNonPositiveCell then Except.error CodaError.numericValueSign
  else
    Except.ok (DataFrame.mk df.columns df.rowIndex
      (df.data.map (fun row =>
        row.map (fun c => some (Real.log (cellVal c / gmean row))))))

/-- The sample frame of the test suite and the spec scenario:
columns a,b,c,d with rows [65,12,18,5] and [63,16,15,6]. -/
noncomputable def SAMPLE_DATAFRAME : DataFrame :=
  DataFrame.mk ["a", "b", "c", "d"] [0, 1]
    [[some 65, some 12, some 18, some 5], [some 63, some 16, some 15, some 6]]

/-- The sample frame with its first cell set to zero, as in the zero-handling
test of the test suite. -/
noncomputable def ZERO_CELL_DATAFRAME : DataFrame :=
  DataFrame.mk ["a", "b", "c", "d"] [0, 1]
    [[some 0, some 12, some 18, some 5], [some 63, some 16, some 15, some 6]]

/-- A frame holding a null (NaN) cell. -/
noncomputable def NULL_DATAFRAME : DataFrame :=
  DataFrame.mk ["a", "b"] [0] [[none, some 1]]

/-- A frame with a single column, the degenerate input for the ALR
transform. -/
noncomputable def SINGLE_COLUMN_DATAFRAME : DataFrame :=
  DataFrame.mk ["a"] [0] [[some 1]]

/-- The 4x4 frame of ones from the CLR test suite. -/
noncomputable def ONES_DATAFRAME_4x4 : DataFrame :=
  DataFrame.mk ["a", "b", "c", "d"] [0, 1, 2, 3]
    [[some 1, some 1, some 1, some 1], [some 1, some 1, some 1, some 1],
     [some 1, some 1, some 1, some 1], [some 1, some 1, some 1, some 1]]

/-! Helper lemmas about index resolution and the successful ALR path. -/

lemma resolveIdx_lt (n : Nat) (idx : Int)
    (h : -(n : Int) ≤ idx ∧ idx < (n : Int)) : resolveIdx n idx < n := by
  unfold resolveIdx
  split <;> omega

lemma check_column_index_true (df : DataFrame) (idx : Int)
    (h : -(df.columns.length : Int) ≤ idx ∧ idx < (df.columns.length : Int)) :
    check_column_index_in_dataframe df idx = true := by
  unfold check_column_index_in_dataframe
  exact decide_eq_true h

lemma denomName_mem (df : DataFrame) (idx : Int)
    (h : -(df.columns.length : Int) ≤ idx ∧ idx < (df.columns.length : Int)) :
    denomName df idx ∈ df.columns := by
  have hlt := resolveIdx_lt df.columns.length idx h
  rw [denomName, List.getD_eq_getElem df.columns "" hlt]
  exact List.getElem_mem hlt

lemma alr_transform_ok (df : DataFrame) (idx : Int) (keep : Bool)
    (hnull : df.hasNull = false)
    (hidx : -(df.columns.length : Int) ≤ idx ∧ idx < (df.columns.length : Int)) :
    alr_transform df idx keep =
      Except.ok (_alr_transform df
        (if keep then df.columns else df.columns.erase (denomName df idx))
        (denomName df idx)) := by
  have hmem := denomName_mem df idx hidx
  have hchk := check_column_index_true df idx hidx
  cases keep <;>
    simp [alr_transform, check_compositional, alr_transform_body, hnull, hchk, hmem]

lemma alr_transform_ok_keep (df : DataFrame) (idx : Int)
    (hnull : df.hasNull = false)
    (hidx : -(df.columns.length : Int) ≤ idx ∧ idx < (df.columns.length : Int)) :
    alr_transform df idx true =
      Except.ok (_alr_transform df df.columns (denomName df idx)) := by
  simpa using alr_transform_ok df idx true hnull hidx

lemma alr_transform_ok_drop (df : DataFrame) (idx : Int)
    (hnull : df.hasNull = false)
    (hidx : -(df.columns.length : Int) ≤ idx ∧ idx < (df.columns.length : Int)) :
    alr_transform df idx false =
      Except.ok (_alr_transform df (df.columns.erase (denomName df idx))
        (denomName df idx)) := by
  simpa using alr_transform_ok df idx false hnull hidx

/-- Claim C1: on the table with columns a,b,c,d and rows [65,12,18,5] and
[63,16,15,6], `alr_transform` with the default index (-1, column d) and the
default keep_redundant_column=False returns the table with columns a,b,c,
values log(65/5), log(12/5), log(18/5) and log(63/6), log(16/6), log(15/6),
and the same row index as the input. -/
theorem alr_transform_sample_scenario :
    alr_transform SAMPLE_DATAFRAME (-1) false =
      Except.ok (DataFrame.mk ["a", "b", "c"] [0, 1]
        [[some (Real.log (65 / 5)), some (Real.log (12 / 5)), some (Real.log (18 / 5))],
         [some (Real.log (63 / 6)), some (Real.log (16 / 6)), some (Real.log (15 / 6))]]) :=
  rfl

/-- Claim C9: the helpers `_alr_transform_old` and `_alr_transform` are
extensionally equal (their bodies are identical in the source). -/
theorem alr_transform_old_eq_new :
    ∀ (df : DataFrame) (columns : List String) (denominator_column : String),
      _alr_transform_old df columns denominator_column =
        _alr_transform df columns denominator_column :=
  fun _ _ _ => rfl

/-- Claim C4: a table holding a null cell makes `alr_transform` raise
InvalidComposition, whatever the index and the keep_redundant_column flag,
and before any index validation (even an out-of-bounds index reports the
null first). -/
theorem alr_transform_null_invalid_composition (df : DataFrame) (idx : Int)
    (keep : Bool) (h : df.hasNull = true) :
    alr_transform df idx keep = Except.error CodaError.invalidComposition := by
  simp [alr_transform, check_compositional, h]

/-- Witness for C4: the frame with a null cell, with an out-of-bounds index
and keep_redundant_column=True. -/
theorem alr_transform_null_invalid_composition_witness :
    alr_transform NULL_DATAFRAME 5 true = Except.error CodaError.invalidComposition :=
  alr_transform_null_invalid_composition NULL_DATAFRAME 5 true rfl

/-- Claim C2 evaluation: on the sample frame with its first cell zeroed (a
zero in the numerator column a), `alr_transform` does not raise any error: it
returns a table whose first cell is log(0/5), the log of a zero ratio (minus
infinity in the floating-point run), contradicting the claim and the
docstring of the source that zeros in numerator or denominator columns are
rejected. -/
theorem alr_transform_zero_cell_returns_table :
    alr_transform ZERO_CELL_DATAFRAME (-1) false =
      Except.ok (DataFrame.mk ["a", "b", "c"] [0, 1]
        [[some (Real.log (0 / 5)), some (Real.log (12 / 5)), some (Real.log (18 / 5))],
         [some (Real.log (63 / 6)), some (Real.log (16 / 6)), some (Real.log (15 / 6))]]) :=
  rfl

/-- Claim C3 evaluation: on a one-column table with the default index and
keep_redundant_column=False the numerator set is empty, and `alr_transform`
returns an empty (zero-column) table instead of raising
InvalidParameterValue as the claim and the docstring of the source require. -/
theorem alr_transform_single_column_returns_empty :
    alr_transform SINGLE_COLUMN_DATAFRAME (-1) false =
      Except.ok (DataFrame.mk [] [0] [[]]) :=
  rfl

/-- Claim C5: on a null-free table with n columns, an index outside
-n .. n-1 makes `alr_transform` fail with InvalidColumnIndex, and an index
inside that range never produces that error (the call returns a table). -/
theorem alr_transform_index_bounds (df : DataFrame) (idx : Int) (keep : Bool)
    (hnull : df.hasNull = false) :
    (¬(-(df.columns.length : Int) ≤ idx ∧ idx < (df.columns.length : Int)) →
        alr_transform df idx keep = Except.error CodaError.invalidColumnIndex) ∧
    ((-(df.columns.length : Int) ≤ idx ∧ idx < (df.columns.length : Int)) →
        ∃ out, alr_transform df idx keep = Except.ok out) := by
  constructor
  · intro h
    have hchk : check_column_index_in_dataframe df idx = false := by
      unfold check_column_index_in_dataframe
      exact decide_eq_false h
    simp [alr_transform, check_compositional, alr_transform_body, hnull, hchk]
  · intro h
    exact ⟨_, alr_transform_ok df idx keep hnull h⟩

/-- Witness for C5: on the sample frame (4 columns), index 4 is rejected
with InvalidColumnIndex and index -1 returns a table. -/
theorem alr_transform_index_bounds_witness :
    alr_transform SAMPLE_DATAFRAME 4 false = Except.error CodaError.invalidColumnIndex ∧
      ∃ out, alr_transform SAMPLE_DATAFRAME (-1) false = Except.ok out :=
  ⟨(alr_transform_index_bounds SAMPLE_DATAFRAME 4 false rfl).1 (by decide),
   (alr_transform_index_bounds SAMPLE_DATAFRAME (-1) false rfl).2 (by decide)⟩

/-- Claim C10: on a null-free table with a valid denominator index,
`alr_transform` with keep_redundant_column=True returns a table whose columns
are exactly the columns of the input in the same order; in particular the
branch appending the denominator to the column list is never taken. -/
theorem alr_transform_keep_true_preserves_columns (df : DataFrame) (idx : Int)
    (hnull : df.hasNull = false)
    (hidx : -(df.columns.length : Int) ≤ idx ∧ idx < (df.columns.length : Int)) :
    ∃ out, alr_transform df idx true = Except.ok out ∧ out.columns = df.columns :=
  ⟨_, alr_transform_ok_keep df idx hnull hidx, rfl⟩

/-- Witness for C10: the sample frame with index 0. -/
theorem alr_transform_keep_true_preserves_columns_witness :
    ∃ out, alr_transform SAMPLE_DATAFRAME 0 true = Except.ok out ∧
      out.columns = SAMPLE_DATAFRAME.columns :=
  alr_transform_keep_true_preserves_columns SAMPLE_DATAFRAME 0 rfl (by decide)

/-- Claim C6: on a valid table (null-free, distinct column names, nonzero
denominator cells) with a valid denominator index, keep_redundant_column=False
removes the denominator name from the output columns, and
keep_redundant_column=True keeps it, with every output cell of the
denominator column equal to zero (the log of the ratio of the denominator to
itself). -/
theorem alr_transform_keep_redundant_column_flag (df : DataFrame) (idx : Int)
    (hnull : df.hasNull = false)
    (hidx : -(df.columns.length : Int) ≤ idx ∧ idx < (df.columns.length : Int))
    (hnodup : df.columns.Nodup)
    (hdenom : ∀ row ∈ df.data, ∃ x : ℝ,
      getCell df row (denomName df idx) = some x ∧ x ≠ 0) :
    (∃ out, alr_transform df idx false = Except.ok out ∧
        denomName df idx ∉ out.columns) ∧
    (∃ out, alr_transform df idx true = Except.ok out ∧
        denomName df idx ∈ out.columns ∧
        ∀ row ∈ out.data, ∀ j, (hj : j < out.columns.length) →
          out.columns[j] = denomName df idx → row.getD j none = some (0 : ℝ)) := by
  constructor
  · exact ⟨_, alr_transform_ok_drop df idx hnull hidx, hnodup.not_mem_erase⟩
  · refine ⟨_, alr_transform_ok_keep df idx hnull hidx, denomName_mem df idx hidx, ?_⟩
    intro row hrow j hj hcol
    obtain ⟨row0, hrow0, rfl⟩ := List.mem_map.mp hrow
    obtain ⟨x, hx, hx0⟩ := hdenom row0 hrow0
    have hj' : j < df.columns.length := hj
    have hcol' : df.columns[j] = denomName df idx := hcol
    have hmap : j < (df.columns.map (fun c =>
        cellLog (cellDiv (getCell df row0 c)
          (getCell df row0 (denomName df idx))))).length := by
      simpa using hj'
    have key : ∀ cname, cname = denomName df idx →
        cellLog (cellDiv (getCell df row0 cname)
          (getCell df row0 (denomName df idx))) = some ((0 : ℝ)) := by
      intro cname hc
      subst hc
      rw [hx]
      show some (Real.log (x / x)) = some 0
      rw [div_self hx0, Real.log_one]
    rw [List.getD_eq_getElem _ _ hmap, List.getElem_map]
    exact key _ hcol'

/-- Witness for C6: the sample frame with the default index -1 (column d,
cells 5 and 6). -/
theorem alr_transform_keep_redundant_column_flag_witness :
    (∃ out, alr_transform SAMPLE_DATAFRAME (-1) false = Except.ok out ∧
        denomName SAMPLE_DATAFRAME (-1) ∉ out.columns) ∧
    (∃ out, alr_transform SAMPLE_DATAFRAME (-1) true = Except.ok out ∧
        denomName SAMPLE_DATAFRAME (-1) ∈ out.columns ∧
        ∀ row ∈ out.data, ∀ j, (hj : j < out.columns.length) →
          out.columns[j] = denomName SAMPLE_DATAFRAME (-1) →
            row.getD j none = some (0 : ℝ)) :=
  alr_transform_keep_redundant_column_flag SAMPLE_DATAFRAME (-1) rfl (by decide)
    (by decide)
    (by
      intro row hrow
      simp [SAMPLE_DATAFRAME] at hrow
      rcases hrow with h | h <;> subst h <;> exact ⟨_, rfl, by norm_num⟩)

/-! Helper lemmas for the CLR transform on rows of equal cells. -/

lemma clr_transform_ok (df : DataFrame) (hnull : df.hasNull = false)
    (hpos : ¬ df.hasNonPositiveCell) :
    clr_transform df = Except.ok (DataFrame.mk df.columns df.rowIndex
      (df.data.map (fun row =>
        row.map (fun c => some (Real.log (cellVal c / gmean row)))))) := by
  simp [clr_transform, hnull, hpos]

lemma gmean_replicate (n : Nat) (c : ℝ) (hc : 0 < c) (hn : n ≠ 0) :
    gmean (List.replicate n (some c : Cell)) = c := by
  unfold gmean
  rw [List.map_replicate, List.sum_replicate, List.length_replicate]
  simp only [cellVal, Option.getD_some]
  rw [nsmul_eq_mul, mul_div_cancel_left₀ _ (Nat.cast_ne_zero.mpr hn)]
  exact Real.exp_log hc

lemma clr_row_replicate (n : Nat) (c : ℝ) (hc : 0 < c) :
    (List.replicate n (some c : Cell)).map
      (fun cc => some (Real.log (cellVal cc /
        gmean (List.replicate n (some c : Cell))))) =
    List.replicate n (some (0 : ℝ)) := by
  rcases Nat.eq_zero_or_pos n with h0 | hpos
  · subst h0
    rfl
  · rw [List.map_replicate, gmean_replicate n c hc hpos.ne']
    simp [cellVal, div_self hc.ne', Real.log_one]

/-- Claim C8: on a valid table (null-free, all cells strictly positive), a
row all of whose cells hold the same strictly positive value is mapped by
`clr_transform` to an all-zero row (the ratio to the geometric mean is one),
with columns and row labels preserved; the 4x4 table of ones of the test
suite is the particular case giving the 4x4 table of zeros. -/
theorem clr_transform_equal_row_all_zero (df : DataFrame) (i : Nat) (c : ℝ)
    (hc : 0 < c)
    (hnull : df.hasNull = false)
    (hpos : ¬ df.hasNonPositiveCell)
    (hrow : df.data.getD i [] = List.replicate df.columns.length (some c)) :
    ∃ out, clr_transform df = Except.ok out ∧ out.columns = df.columns ∧
      out.rowIndex = df.rowIndex ∧
      out.data.getD i [] = List.replicate df.columns.length (some (0 : ℝ)) := by
  refine ⟨_, clr_transform_ok df hnull hpos, rfl, rfl, ?_⟩
  by_cases hi : i < df.data.length
  · have hmap : i < (df.data.map (fun row =>
        row.map (fun cc => some (Real.log (cellVal cc / gmean row))))).length := by
      simpa using hi
    rw [List.getD_eq_getElem _ _ hmap, List.getElem_map]
    rw [List.getD_eq_getElem _ _ hi] at hrow
    rw [hrow]
    exact clr_row_replicate df.columns.length c hc
  · push_neg at hi
    have h1 : df.data.getD i [] = [] := List.getD_eq_default _ _ hi
    have hn : df.columns.length = 0 := by
      have h2 := hrow.symm.trans h1
      simpa using congrArg List.length h2
    rw [hn]
    exact List.getD_eq_default _ _ (by simpa using hi)

/-- Witness for C8: the 4x4 frame of ones; its first row is sent to four
zeros. -/
theorem clr_transform_equal_row_all_zero_witness :
    ∃ out, clr_transform ONES_DATAFRAME_4x4 = Except.ok out ∧
      out.columns = ONES_DATAFRAME_4x4.columns ∧
      out.rowIndex = ONES_DATAFRAME_4x4.rowIndex ∧
      out.data.getD 0 [] =
        List.replicate ONES_DATAFRAME_4x4.columns.length (some (0 : ℝ)) :=
  clr_transform_equal_row_all_zero ONES_DATAFRAME_4x4 0 1 (by norm_num) rfl
    (by
      intro h
      obtain ⟨row, hrow, cc, hcc, hle⟩ := h
      simp [ONES_DATAFRAME_4x4] at hrow
      subst hrow
      simp at hcc
      subst hcc
      norm_num [cellVal] at hle)
    rfl
